import Mathlib

/-!
Shallow embedding of the Code Execution and Recovery Engine of
src/src/main.rs (CodexCLI).  Pure string helpers mirror the Rust std
functions the source uses; external toolchain processes are modelled by a
ToolWorld oracle whose answers may depend on the history of invocations;
on-disk state and the process working directory are threaded explicitly
through an EngineState.  All definitions are executable and kernel
reducible (structural recursion only), so concrete runs evaluate by rfl.
-/

/-- The apostrophe character (code 39), used by diagnostic-text extraction. -/
def squoteC : Char := Char.ofNat 39

/-- A one-character string holding an apostrophe. -/
def squote : String := String.mk [squoteC]

/-- The slash character (code 47), the path separator. -/
def slashC : Char := Char.ofNat 47

/-- The plus character (code 43), an optional sign accepted by u16 parsing. -/
def plusC : Char := Char.ofNat 43

/-- Rust str::trim: drop whitespace from both ends (character-list form). -/
def trimL (s : List Char) : List Char :=
  ((s.dropWhile Char.isWhitespace).reverse.dropWhile Char.isWhitespace).reverse

/-- Rust str::trim on strings. -/
def rust_trim (s : String) : String := String.mk (trimL s.data)

/-- Rust str::starts_with: the first list is a prefix of the second. -/
def hasPrefixL : List Char → List Char → Bool
  | [], _ => true
  | _ :: _, [] => false
  | p :: ps, c :: cs => p == c && hasPrefixL ps cs

/-- Rust str::contains: substring occurrence test. -/
def containsSubL (pat : List Char) : List Char → Bool
  | [] => hasPrefixL pat []
  | c :: rest => hasPrefixL pat (c :: rest) || containsSubL pat rest

/-- Rust str::contains with string arguments. -/
def rust_contains (s pat : String) : Bool := containsSubL pat.data s.data

/-- Everything after the first occurrence of pat (pat assumed nonempty);
none when pat does not occur. -/
def afterFirstL (pat : List Char) : List Char → Option (List Char)
  | [] => if hasPrefixL pat [] then some [] else none
  | c :: rest =>
    if hasPrefixL pat (c :: rest) then some (List.drop (pat.length - 1) rest)
    else afterFirstL pat rest

/-- Everything strictly before the first occurrence of pat (all of it when
pat does not occur). -/
def uptoFirstL (pat : List Char) : List Char → List Char
  | [] => []
  | c :: rest => if hasPrefixL pat (c :: rest) then [] else c :: uptoFirstL pat rest

/-- The package-name extraction used by handle_python_error and
handle_node_error: Rust error.split(marker).nth(1) takes the segment
between the first and second marker occurrence (or the rest when the
marker occurs once), and .split(quote).next() then cuts it at the first
apostrophe.  none exactly when the marker does not occur. -/
def extract_module_name (marker error : String) : Option String :=
  (afterFirstL marker.data error.data).map
    (fun rest => String.mk (uptoFirstL [squoteC] (uptoFirstL marker.data rest)))

/-- Accumulator loop of split_whitespace. -/
def splitWsAux : List Char → List Char → List (List Char)
  | [], acc => if acc.isEmpty then [] else [acc.reverse]
  | c :: rest, acc =>
    if c.isWhitespace then
      if acc.isEmpty then splitWsAux rest []
      else acc.reverse :: splitWsAux rest []
    else splitWsAux rest (c :: acc)

/-- Rust str::split_whitespace: maximal runs of non-whitespace characters. -/
def split_whitespace (s : String) : List String := (splitWsAux s.data []).map String.mk

/-- Rust str::parse::<u16>: optional leading plus sign, then decimal
digits; the value must be below 65536. -/
def parse_u16 (s : String) : Option Nat :=
  let t := if hasPrefixL [plusC] s.data then s.data.drop 1 else s.data
  if t.isEmpty then none
  else if t.all Char.isDigit then
    let n := t.foldl (fun a c => a * 10 + (c.toNat - 48)) 0
    if n < 65536 then some n else none
  else none

/-- Rust str::to_lowercase (the language tags are plain ASCII). -/
def rust_to_lowercase (s : String) : String := String.mk (s.data.map Char.toLower)

/-- The language-tag table of execute_code_block (main.rs lines 373-381):
lowercased tag to temp-file extension; none is the unsupported case. -/
def resolve_extension (language : String) : Option String :=
  match rust_to_lowercase language with
  | "python" | "py" => some "py"
  | "javascript" | "js" => some "js"
  | "typescript" | "ts" => some "ts"
  | "rust" | "rs" => some "rs"
  | "bash" | "sh" => some "sh"
  | "html" => some "html"
  | _ => none

/-- Split a character list at every occurrence of a separator character. -/
def splitCharAux (sep : Char) : List Char → List Char → List (List Char)
  | [], acc => [acc.reverse]
  | c :: rest, acc =>
    if c == sep then acc.reverse :: splitCharAux sep rest []
    else splitCharAux sep rest (c :: acc)

/-- OS path resolution for set_current_dir and current_dir: resolve a path
string against an absolute directory given as a component list.  A leading
slash makes the path absolute; a dot-dot component pops one component. -/
def resolvePath (cwd : List String) (p : String) : List String :=
  let comps := (splitCharAux slashC p.data []).map String.mk
  let start := if hasPrefixL [slashC] p.data then ([] : List String) else cwd
  comps.foldl
    (fun acc c =>
      if c = "" then acc
      else if c = "." then acc
      else if c = ".." then acc.dropLast
      else acc ++ [c]) start

/-- Captured result of a process invocation via Command::output(): exit
success flag plus captured stdout and stderr. -/
structure CmdOutput where
  success : Bool
  stdout : String
  stderr : String
deriving Repr, DecidableEq

/-- Result of a process invocation via Command::status() with inherited
streams: exit success flag plus the Display rendering of the status. -/
structure CmdStatus where
  success : Bool
  display : String
deriving Repr, DecidableEq

/-- Outcome of the File::create / write_all chain of execute_code_block:
it can fail before the file exists, or after creating it. -/
inductive WriteOutcome
  | ok
  | failAfterCreate (msg : String)
  | failNoCreate (msg : String)
deriving Repr, DecidableEq

/-- One external invocation performed by the engine, recorded in order. -/
inductive EngineEvent
  | venvCreate
  | aptInstall
  | pipUpgrade (pkg : String)
  | pipInstall (pkg : String)
  | npmInit
  | npmInstall (pkg : String)
  | pythonRun (file : String) (interactive : Bool)
  | nodeRun (file : String)
  | tsNodeRun (file : String)
  | rustcCompile (file : String)
  | binaryRun
  | bashRun (file : String)
  | openFile (file : String)
  | craRun
  | npmStartSpawn
  | httpServerSpawn (port : Nat)
  | writeTemp (file : String)
deriving Repr, DecidableEq

/-- Process-visible state threaded through the engine: the current working
directory (absolute component list), the set of filesystem entries
(absolute component paths), and the trace of external invocations. -/
structure EngineState where
  cwd : List String
  fs : List (List String)
  events : List EngineEvent
deriving Repr, DecidableEq

/-- Append an invocation event to the trace. -/
def logE (st : EngineState) (e : EngineEvent) : EngineState :=
  { st with events := st.events ++ [e] }

/-- Add a filesystem entry (set semantics: no duplicates). -/
def addFs (st : EngineState) (p : List String) : EngineState :=
  if p ∈ st.fs then st else { st with fs := st.fs ++ [p] }

/-- Remove a filesystem entry (std::fs::remove_file; removal of a missing
entry is ignored by the source via let _ =). -/
def rmFs (st : EngineState) (p : List String) : EngineState :=
  { st with fs := st.fs.filter (fun q => decide (q ≠ p)) }

/-- Oracle for the external toolchain processes the engine spawns.  Each
field answers one kind of invocation; the answer may depend on the trace of
invocations made so far, and Except.error models a spawn failure (the
map_err branches of the source). -/
structure ToolWorld where
  venvCreate : List EngineEvent → Except String CmdOutput
  aptInstallPython : List EngineEvent → Except String CmdOutput
  pipUpgrade : String → List EngineEvent → Except String CmdOutput
  pipInstall : String → List EngineEvent → Except String CmdOutput
  npmInit : List EngineEvent → Except String CmdOutput
  npmInstall : String → List EngineEvent → Except String CmdOutput
  pythonRun : List EngineEvent → Except String CmdOutput
  pythonRunInteractive : List EngineEvent → Except String CmdStatus
  nodeRun : List EngineEvent → Except String CmdStatus
  tsNodeRun : List EngineEvent → Except String CmdStatus
  rustcCompile : List EngineEvent → Except String CmdOutput
  binaryRun : List EngineEvent → Except String CmdStatus
  bashRun : List EngineEvent → Except String CmdStatus
  openFile : List EngineEvent → Except String CmdStatus
  craRun : List EngineEvent → Except String CmdStatus
  npmStartSpawn : List EngineEvent → Except String Unit
  httpServerSpawn : Nat → List EngineEvent → Except String Unit
  writeTemp : List EngineEvent → WriteOutcome

/-- One bounded attempt loop of setup_python_environment (main.rs 195-215):
up to n invocations of pip install --upgrade pkg; a spawn error or the
third status failure is fatal. -/
def pip_upgrade_loop (w : ToolWorld) (pkg : String) : Nat → EngineState →
    Except String Unit × EngineState
  | 0, st => (.error ("Failed to install " ++ pkg ++ " after 3 attempts"), st)
  | n + 1, st =>
    let st1 := logE st (.pipUpgrade pkg)
    match w.pipUpgrade pkg st.events with
    | .error e => (.error e, st1)
    | .ok out =>
      if out.success then (.ok (), st1)
      else if n = 0 then
        (.error ("Failed to install " ++ pkg ++ " after 3 attempts"), st1)
      else pip_upgrade_loop w pkg n st1

/-- The baseline-package upgrades of setup_python_environment (main.rs
193-215): pip, setuptools and wheel in order, three attempts each. -/
def setup_python_packages (w : ToolWorld) (st : EngineState) :
    Except String Unit × EngineState :=
  match pip_upgrade_loop w "pip" 3 st with
  | (.error e, st1) => (.error e, st1)
  | (.ok _, st1) =>
    match pip_upgrade_loop w "setuptools" 3 st1 with
    | (.error e, st2) => (.error e, st2)
    | (.ok _, st2) => pip_upgrade_loop w "wheel" 3 st2

/-- setup_python_environment (main.rs 154-219).  The venv directory is
created only when the marker is absent; a creation spawn error triggers a
platform package-manager install of the interpreter and one retry of the
creation.  The created marker exists afterwards iff the creation command
reported success (its status is otherwise ignored by the source).  The
baseline upgrades always run afterwards. -/
def setup_python_environment (w : ToolWorld) (st : EngineState) :
    Except String Unit × EngineState :=
  if (st.cwd ++ ["venv"]) ∈ st.fs then setup_python_packages w st
  else
    match w.venvCreate st.events with
    | .ok out =>
      let st1 := logE st .venvCreate
      let st2 := if out.success then addFs st1 (st1.cwd ++ ["venv"]) else st1
      setup_python_packages w st2
    | .error _ =>
      let st1 := logE st .venvCreate
      let st2 := logE st1 .aptInstall
      match w.aptInstallPython st1.events with
      | .error e => (.error e, st2)
      | .ok _ =>
        let st3 := logE st2 .venvCreate
        match w.venvCreate st2.events with
        | .error e => (.error e, st3)
        | .ok out2 =>
          let st4 := if out2.success then addFs st3 (st3.cwd ++ ["venv"]) else st3
          setup_python_packages w st4

/-- install_python_package (main.rs 221-234): spawn pip install pkg; a
spawn error propagates, but the exit status of the installer is ignored. -/
def install_python_package (w : ToolWorld) (pkg : String) (st : EngineState) :
    Except String Unit × EngineState :=
  let st1 := logE st (.pipInstall pkg)
  match w.pipInstall pkg st.events with
  | .error e => (.error e, st1)
  | .ok _ => (.ok (), st1)

/-- setup_node_environment (main.rs 236-246): when package.json is absent,
npm init -y runs; its exit status is ignored, so the manifest exists
afterwards iff the command reported success. -/
def setup_node_environment (w : ToolWorld) (st : EngineState) :
    Except String Unit × EngineState :=
  if (st.cwd ++ ["package.json"]) ∈ st.fs then (.ok (), st)
  else
    let st1 := logE st .npmInit
    match w.npmInit st.events with
    | .error e => (.error e, st1)
    | .ok out =>
      (.ok (), if out.success then addFs st1 (st1.cwd ++ ["package.json"]) else st1)

/-- install_node_package (main.rs 248-255): spawn npm install pkg; the exit
status of the installer is ignored. -/
def install_node_package (w : ToolWorld) (pkg : String) (st : EngineState) :
    Except String Unit × EngineState :=
  let st1 := logE st (.npmInstall pkg)
  match w.npmInstall pkg st.events with
  | .error e => (.error e, st1)
  | .ok _ => (.ok (), st1)

/-- setup_react_environment (main.rs 285-308): foreground npx
create-react-app with inherited streams; non-zero exit is an error. -/
def setup_react_environment (w : ToolWorld) (workdir : Option String)
    (st : EngineState) : Except String Unit × EngineState :=
  let st1 := logE st .craRun
  match w.craRun st.events with
  | .error e => (.error e, st1)
  | .ok status =>
    if status.success then (.ok (), st1)
    else (.error "Failed to create React application", st1)

/-- start_react_server (main.rs 310-330): npm start spawned detached; only
a spawn failure is an error. -/
def start_react_server (w : ToolWorld) (workdir : Option String)
    (st : EngineState) : Except String String × EngineState :=
  let st1 := logE st .npmStartSpawn
  match w.npmStartSpawn st.events with
  | .error e => (.error e, st1)
  | .ok _ => (.ok "React development server started. Press Ctrl+C to stop.", st1)

/-- start_local_server (main.rs 332-351): python -m http.server port
spawned detached; only a spawn failure is an error. -/
def start_local_server (w : ToolWorld) (port : Nat) (workdir : Option String)
    (st : EngineState) : Except String String × EngineState :=
  let st1 := logE st (.httpServerSpawn port)
  match w.httpServerSpawn port st.events with
  | .error e => (.error e, st1)
  | .ok _ =>
    (.ok ("Local server started on port " ++ Nat.repr port ++ ". Press Ctrl+C to stop."), st1)

/-- The port parsing of the start-server directive (main.rs 365-369): the
second whitespace token of the fragment parsed as u16, default 8000. -/
def start_server_port (code : String) : Nat :=
  (((split_whitespace code).get? 1).bind parse_u16).getD 8000

/-- The result type of one engine run: none models nontermination (fuel
exhausted), otherwise the Result of the source plus the final state. -/
abbrev EngineResult := Option (Except String String × EngineState)

/-- The type of the recursive re-entry into execute_code_block that the
error handlers perform. -/
abbrev EngineRecur := String → String → Option String → EngineState → EngineResult

/-- handle_python_error (main.rs 257-269), parameterized by the recursive
call: when the diagnostic holds ModuleNotFoundError, extract the quoted
module name (failure surfaces a fixed message), install it (install exit
status ignored) and re-enter execute_code_block on the same fragment with
language python and no working-directory override; otherwise surface the
diagnostic. -/
def handle_python_error_with (recur : EngineRecur) (w : ToolWorld)
    (error code : String) (st : EngineState) : EngineResult :=
  if rust_contains error "ModuleNotFoundError" then
    match extract_module_name ("No module named " ++ squote) error with
    | none => some (.error "Could not extract package name", st)
    | some pkg =>
      match install_python_package w pkg st with
      | (.error e, st1) => some (.error e, st1)
      | (.ok _, st1) => recur code "python" none st1
  else some (.error error, st)

/-- handle_node_error (main.rs 271-283), parameterized by the recursive
call: same shape as the Python handler with the Cannot find module marker,
npm install, and re-entry with language javascript. -/
def handle_node_error_with (recur : EngineRecur) (w : ToolWorld)
    (error code : String) (st : EngineState) : EngineResult :=
  if rust_contains error "Cannot find module" then
    match extract_module_name ("Cannot find module " ++ squote) error with
    | none => some (.error "Could not extract package name", st)
    | some pkg =>
      match install_node_package w pkg st with
      | (.error e, st1) => some (.error e, st1)
      | (.ok _, st1) => recur code "javascript" none st1
  else some (.error error, st)

/-- The py dispatch arm of execute_code_block (main.rs 396-447): provision
the environment, run the file non-interactively with captured output; on
success return captured stdout; a ModuleNotFoundError diagnostic goes to
the handler; an input-related diagnostic triggers one interactive
re-invocation with inherited streams whose own outcome is final; any other
diagnostic is surfaced as the error. -/
def run_python_block (recur : EngineRecur) (w : ToolWorld)
    (code fname : String) (st : EngineState) : EngineResult :=
  match setup_python_environment w st with
  | (.error e, st1) => some (.error e, st1)
  | (.ok _, st1) =>
    let st2 := logE st1 (.pythonRun fname false)
    match w.pythonRun st1.events with
    | .error e => some (.error e, st2)
    | .ok out =>
      if out.success then some (.ok out.stdout, st2)
      else
        let err := out.stderr
        if rust_contains err "ModuleNotFoundError" then
          handle_python_error_with recur w err code st2
        else if rust_contains err "input(" || rust_contains err "EOF" ||
            rust_contains err "EOFError" then
          let st3 := logE st2 (.pythonRun fname true)
          match w.pythonRunInteractive st2.events with
          | .error e => some (.error e, st3)
          | .ok status =>
            if status.success then some (.ok "", st3)
            else some (.error ("Python exited with status: " ++ status.display), st3)
        else some (.error err, st2)

/-- The js dispatch arm of execute_code_block (main.rs 448-470): provision
the Node environment, run node with inherited streams; on non-zero exit the
source calls handle_node_error with an empty diagnostic string and
propagates its Err via the question mark operator; the status branch after
it is unreachable dead code, translated as written. -/
def run_js_block (recur : EngineRecur) (w : ToolWorld)
    (code fname : String) (st : EngineState) : EngineResult :=
  match setup_node_environment w st with
  | (.error e, st1) => some (.error e, st1)
  | (.ok _, st1) =>
    let st2 := logE st1 (.nodeRun fname)
    match w.nodeRun st1.events with
    | .error e => some (.error e, st2)
    | .ok status =>
      if status.success then some (.ok "", st2)
      else
        match handle_node_error_with recur w "" code st2 with
        | none => none
        | some (.error e, st3) => some (.error e, st3)
        | some (.ok err, st3) =>
          if err.data.isEmpty then some (.ok "", st3)
          else some (.error ("Node.js exited with status: " ++ status.display), st3)

/-- The ts dispatch arm (main.rs 471-489): provision Node, install
typescript and ts-node on every invocation, run ts-node with inherited
streams; non-zero exit is terminal. -/
def run_ts_block (w : ToolWorld) (fname : String) (st : EngineState) : EngineResult :=
  match setup_node_environment w st with
  | (.error e, st1) => some (.error e, st1)
  | (.ok _, st1) =>
    match install_node_package w "typescript" st1 with
    | (.error e, st2) => some (.error e, st2)
    | (.ok _, st2) =>
      match install_node_package w "ts-node" st2 with
      | (.error e, st3) => some (.error e, st3)
      | (.ok _, st3) =>
        let st4 := logE st3 (.tsNodeRun fname)
        match w.tsNodeRun st3.events with
        | .error e => some (.error e, st4)
        | .ok status =>
          if status.success then some (.ok "", st4)
          else some (.error ("TypeScript execution failed with status: " ++ status.display), st4)

/-- The rs dispatch arm (main.rs 490-518): compile with rustc (captured);
compilation failure surfaces the compiler stderr without running anything;
on success the binary exists on disk and is run with inherited streams;
non-zero exit is terminal. -/
def run_rs_block (w : ToolWorld) (fname : String) (st : EngineState) : EngineResult :=
  let st1 := logE st (.rustcCompile fname)
  match w.rustcCompile st.events with
  | .error e => some (.error e, st1)
  | .ok out =>
    if !out.success then some (.error out.stderr, st1)
    else
      let st2 := addFs st1 (st1.cwd ++ ["temp_code"])
      let st3 := logE st2 .binaryRun
      match w.binaryRun st2.events with
      | .error e => some (.error e, st3)
      | .ok status =>
        if status.success then some (.ok "", st3)
        else some (.error ("Rust program exited with status: " ++ status.display), st3)

/-- The sh dispatch arm (main.rs 519-542): run the platform shell on the
file with inherited streams; non-zero exit is terminal. -/
def run_sh_block (w : ToolWorld) (fname : String) (st : EngineState) : EngineResult :=
  let st1 := logE st (.bashRun fname)
  match w.bashRun st.events with
  | .error e => some (.error e, st1)
  | .ok status =>
    if status.success then some (.ok "", st1)
    else some (.error ("Bash script exited with status: " ++ status.display), st1)

/-- The html dispatch arm (main.rs 543-567): open the file in the platform
viewer; success means the open command exited successfully. -/
def run_html_block (w : ToolWorld) (fname : String) (st : EngineState) : EngineResult :=
  let st1 := logE st (.openFile fname)
  match w.openFile st.events with
  | .error e => some (.error e, st1)
  | .ok status =>
    if status.success then some (.ok ("HTML file opened in browser: " ++ fname), st1)
    else some (.error "Failed to open HTML file in browser", st1)

/-- execute_code_block (main.rs 353-586).  fuel bounds the recursion depth
of the missing-dependency handlers (none models nontermination).  In
source order: the three meta-command checks on the trimmed fragment; the
language-tag table; creation of and change into the working-directory
override; the temp-file write (an early question-mark return on failure,
skipping cleanup and restore); the per-extension dispatch; cleanup of the
temp file (skipped for html) and of the compiled binary (rs); and the
restore of the working directory via set_current_dir("..")  when an
override was given. -/
def execute_code_block (w : ToolWorld) : Nat → String → String → Option String →
    EngineState → EngineResult
  | 0, _, _, _, _ => none
  | fuel + 1, code, language, workdir, st =>
    if rust_trim code = "create-react-app" then
      some (match setup_react_environment w workdir st with
        | (.ok _, st1) =>
          (.ok "React application created successfully. Use 'npm start' to run the development server.", st1)
        | (.error e, st1) => (.error e, st1))
    else if rust_trim code = "npm start" then
      some (start_react_server w workdir st)
    else if hasPrefixL "start-server".data (rust_trim code).data = true then
      some (start_local_server w (start_server_port code) workdir st)
    else
      match resolve_extension language with
      | none => some (.error ("Unsupported language: " ++ language), st)
      | some ext =>
        let dirSt :=
          match workdir with
          | none => st
          | some d =>
            let p := resolvePath st.cwd d
            { addFs st p with cwd := p }
        let fname := "temp_code." ++ ext
        match w.writeTemp dirSt.events with
        | .failNoCreate e => some (.error e, dirSt)
        | .failAfterCreate e => some (.error e, addFs dirSt (dirSt.cwd ++ [fname]))
        | .ok =>
          let st0 := logE (addFs dirSt (dirSt.cwd ++ [fname])) (.writeTemp fname)
          let res :=
            if ext = "py" then run_python_block (execute_code_block w fuel) w code fname st0
            else if ext = "js" then run_js_block (execute_code_block w fuel) w code fname st0
            else if ext = "ts" then run_ts_block w fname st0
            else if ext = "rs" then run_rs_block w fname st0
            else if ext = "sh" then run_sh_block w fname st0
            else if ext = "html" then run_html_block w fname st0
            else some (.error ("Unsupported language: " ++ ext), st0)
          match res with
          | none => none
          | some (r, st1) =>
            let st2 := if ext ≠ "html" then rmFs st1 (st1.cwd ++ [fname]) else st1
            let st3 := if ext = "rs" then rmFs st2 (st2.cwd ++ ["temp_code"]) else st2
            let st4 :=
              if workdir.isSome then { st3 with cwd := resolvePath st3.cwd ".." } else st3
            some (r, st4)

/-- handle_python_error with the recursion tied back to execute_code_block
at the given fuel, matching the source signature. -/
def handle_python_error (w : ToolWorld) (fuel : Nat) (error code : String)
    (st : EngineState) : EngineResult :=
  handle_python_error_with (execute_code_block w fuel) w error code st

/-- handle_node_error with the recursion tied back to execute_code_block
at the given fuel, matching the source signature. -/
def handle_node_error (w : ToolWorld) (fuel : Nat) (error code : String)
    (st : EngineState) : EngineResult :=
  handle_node_error_with (execute_code_block w fuel) w error code st

/-- An output reporting success with empty streams. -/
def okOut : CmdOutput := { success := true, stdout := "", stderr := "" }

/-- A status reporting success. -/
def okStatus : CmdStatus := { success := true, display := "exit status: 0" }

/-- A world in which every external invocation can be spawned and reports
success. -/
def okWorld : ToolWorld where
  venvCreate _ := .ok okOut
  aptInstallPython _ := .ok okOut
  pipUpgrade _ _ := .ok okOut
  pipInstall _ _ := .ok okOut
  npmInit _ := .ok okOut
  npmInstall _ _ := .ok okOut
  pythonRun _ := .ok okOut
  pythonRunInteractive _ := .ok okStatus
  nodeRun _ := .ok okStatus
  tsNodeRun _ := .ok okStatus
  rustcCompile _ := .ok okOut
  binaryRun _ := .ok okStatus
  bashRun _ := .ok okStatus
  openFile _ := .ok okStatus
  craRun _ := .ok okStatus
  npmStartSpawn _ := .ok ()
  httpServerSpawn _ _ := .ok ()
  writeTemp _ := .ok

/-- The initial state used by the concrete runs: working directory home,
empty filesystem, empty trace. -/
def st0 : EngineState := { cwd := ["home"], fs := [], events := [] }

/-- Number of remediation installs (pip or npm) recorded in a trace. -/
def installCount (evs : List EngineEvent) : Nat :=
  (evs.filter (fun e => match e with
    | .pipInstall _ => true
    | .npmInstall _ => true
    | _ => false)).length

/-- Number of non-interactive Python executions recorded in a trace. -/
def pyRunCount (evs : List EngineEvent) : Nat :=
  (evs.filter (fun e => match e with
    | .pythonRun _ false => true
    | _ => false)).length

/-- Number of venv-creation invocations recorded in a trace. -/
def venvCreateCount (evs : List EngineEvent) : Nat :=
  (evs.filter (fun e => match e with
    | .venvCreate => true
    | _ => false)).length

/-- The Python missing-module diagnostic for package foo, as the
interpreter prints it. -/
def fooModuleError : String :=
  "ModuleNotFoundError: No module named " ++ squote ++ "foo" ++ squote ++ "\n"

/-- A world in which the non-interactive Python run keeps failing with a
missing-module diagnostic until two remediation installs have happened,
then succeeds; every install spawn succeeds.  It models a module that the
first pip install fails to provide. -/
def loopWorld : ToolWorld :=
  { okWorld with
    pythonRun := fun evs =>
      if installCount evs < 2 then .ok { success := false, stdout := "", stderr := fooModuleError }
      else .ok { success := true, stdout := "ok", stderr := "" } }

/-- A world in which the node invocation exits non-zero (its diagnostic
goes to the inherited stderr, so nothing is captured). -/
def nodeFailWorld : ToolWorld :=
  { okWorld with nodeRun := fun _ => .ok { success := false, display := "exit status: 1" } }

/-- A world in which the temp-file write fails after File::create has
already created the (empty) file. -/
def writeFailWorld : ToolWorld :=
  { okWorld with writeTemp := fun _ => .failAfterCreate "disk full" }

theorem logE_cwd (st : EngineState) (e : EngineEvent) : (logE st e).cwd = st.cwd := rfl

theorem logE_fs (st : EngineState) (e : EngineEvent) : (logE st e).fs = st.fs := rfl

theorem logE_events (st : EngineState) (e : EngineEvent) :
    (logE st e).events = st.events ++ [e] := rfl

theorem addFs_cwd (st : EngineState) (p : List String) : (addFs st p).cwd = st.cwd := by
  unfold addFs; split <;> rfl

theorem addFs_events (st : EngineState) (p : List String) :
    (addFs st p).events = st.events := by
  unfold addFs; split <;> rfl

theorem addFs_mem (st : EngineState) (p : List String) : p ∈ (addFs st p).fs := by
  unfold addFs; split
  next h => exact h
  next h => simp

theorem rmFs_cwd (st : EngineState) (p : List String) : (rmFs st p).cwd = st.cwd := rfl

theorem rmFs_events (st : EngineState) (p : List String) :
    (rmFs st p).events = st.events := rfl

theorem rmFs_not_mem (st : EngineState) (p : List String) : p ∉ (rmFs st p).fs := by
  unfold rmFs
  intro h
  simp only [List.mem_filter] at h
  exact (by simpa using h.2 : p ≠ p) rfl

theorem rmFs_mono {st : EngineState} {p q : List String} (h : q ∉ st.fs) :
    q ∉ (rmFs st p).fs := by
  unfold rmFs
  intro hq
  exact h (List.mem_filter.1 hq).1

theorem pip_upgrade_loop_cwd {w : ToolWorld} {pkg : String} :
    ∀ {n : Nat} {st : EngineState} {r : Except String Unit} {s : EngineState},
      pip_upgrade_loop w pkg n st = (r, s) → s.cwd = st.cwd := by
  intro n
  induction n with
  | zero => intro st r s h; cases h; rfl
  | succ n ih =>
    intro st r s h
    simp only [pip_upgrade_loop] at h
    split at h
    · cases h; rfl
    · split at h
      · cases h; rfl
      · split at h
        · cases h; rfl
        · have := ih h; simpa [logE] using this

theorem setup_python_packages_cwd {w : ToolWorld} {st : EngineState}
    {r : Except String Unit} {s : EngineState}
    (h : setup_python_packages w st = (r, s)) : s.cwd = st.cwd := by
  simp only [setup_python_packages] at h
  split at h
  next heq => cases h; exact pip_upgrade_loop_cwd heq
  next u s1 heq =>
    split at h
    next heq2 => cases h; exact (pip_upgrade_loop_cwd heq2).trans (pip_upgrade_loop_cwd heq)
    next u2 s2 heq2 =>
      exact ((pip_upgrade_loop_cwd h).trans (pip_upgrade_loop_cwd heq2)).trans
        (pip_upgrade_loop_cwd heq)

theorem setup_python_environment_cwd {w : ToolWorld} {st : EngineState}
    {r : Except String Unit} {s : EngineState}
    (h : setup_python_environment w st = (r, s)) : s.cwd = st.cwd := by
  simp only [setup_python_environment] at h
  split at h
  · exact setup_python_packages_cwd h
  · split at h
    next out heq =>
      have := setup_python_packages_cwd h
      simp only [addFs_cwd, logE_cwd] at this
      split at this <;> simpa [addFs_cwd, logE_cwd] using this
    next heq =>
      split at h
      · cases h; rfl
      · split at h
        · cases h; rfl
        next out2 heq2 =>
          have := setup_python_packages_cwd h
          split at this <;> simpa [addFs_cwd, logE_cwd] using this

theorem setup_node_environment_cwd {w : ToolWorld} {st : EngineState}
    {r : Except String Unit} {s : EngineState}
    (h : setup_node_environment w st = (r, s)) : s.cwd = st.cwd := by
  simp only [setup_node_environment] at h
  split at h
  · cases h; rfl
  · split at h
    · cases h; rfl
    · cases h
      split <;> simp [addFs_cwd, logE_cwd]

theorem install_python_package_cwd {w : ToolWorld} {pkg : String} {st : EngineState}
    {r : Except String Unit} {s : EngineState}
    (h : install_python_package w pkg st = (r, s)) : s.cwd = st.cwd := by
  simp only [install_python_package] at h
  split at h <;> (cases h; rfl)

theorem install_node_package_cwd {w : ToolWorld} {pkg : String} {st : EngineState}
    {r : Except String Unit} {s : EngineState}
    (h : install_node_package w pkg st = (r, s)) : s.cwd = st.cwd := by
  simp only [install_node_package] at h
  split at h <;> (cases h; rfl)

theorem setup_react_environment_cwd {w : ToolWorld} {wd : Option String} {st : EngineState}
    {r : Except String Unit} {s : EngineState}
    (h : setup_react_environment w wd st = (r, s)) : s.cwd = st.cwd := by
  simp only [setup_react_environment] at h
  split at h
  · cases h; rfl
  · split at h <;> (cases h; rfl)

theorem start_react_server_cwd {w : ToolWorld} {wd : Option String} {st : EngineState}
    {r : Except String String} {s : EngineState}
    (h : start_react_server w wd st = (r, s)) : s.cwd = st.cwd := by
  simp only [start_react_server] at h
  split at h <;> (cases h; rfl)

theorem start_local_server_cwd {w : ToolWorld} {port : Nat} {wd : Option String}
    {st : EngineState} {r : Except String String} {s : EngineState}
    (h : start_local_server w port wd st = (r, s)) : s.cwd = st.cwd := by
  simp only [start_local_server] at h
  split at h <;> (cases h; rfl)

/-- A recursive re-entry that, with no working-directory override, leaves
the working directory unchanged. -/
def PreservesCwdNone (recur : EngineRecur) : Prop :=
  ∀ c l s r s', recur c l none s = some (r, s') → s'.cwd = s.cwd

theorem handle_python_error_with_cwd {recur : EngineRecur} {w : ToolWorld}
    {error code : String} {st : EngineState} {r : Except String String} {s : EngineState}
    (hrec : PreservesCwdNone recur)
    (h : handle_python_error_with recur w error code st = some (r, s)) : s.cwd = st.cwd := by
  simp only [handle_python_error_with] at h
  split at h
  · split at h
    · cases h; rfl
    · split at h
      next heq => cases h; exact install_python_package_cwd heq
      next heq => exact (hrec _ _ _ _ _ h).trans (install_python_package_cwd heq)
  · cases h; rfl

theorem handle_node_error_with_cwd {recur : EngineRecur} {w : ToolWorld}
    {error code : String} {st : EngineState} {r : Except String String} {s : EngineState}
    (hrec : PreservesCwdNone recur)
    (h : handle_node_error_with recur w error code st = some (r, s)) : s.cwd = st.cwd := by
  simp only [handle_node_error_with] at h
  split at h
  · split at h
    · cases h; rfl
    · split at h
      next heq => cases h; exact install_node_package_cwd heq
      next heq => exact (hrec _ _ _ _ _ h).trans (install_node_package_cwd heq)
  · cases h; rfl

theorem run_python_block_cwd {recur : EngineRecur} {w : ToolWorld}
    {code fname : String} {st : EngineState} {r : Except String String} {s : EngineState}
    (hrec : PreservesCwdNone recur)
    (h : run_python_block recur w code fname st = some (r, s)) : s.cwd = st.cwd := by
  simp only [run_python_block] at h
  split at h
  next heq => cases h; exact setup_python_environment_cwd heq
  next u st1 heq =>
    have h1 : st1.cwd = st.cwd := setup_python_environment_cwd heq
    split at h
    · cases h; exact h1
    next out hout =>
      split at h
      · cases h; exact h1
      · split at h
        · exact (handle_python_error_with_cwd hrec h).trans h1
        · split at h
          · split at h
            · cases h; exact h1
            · split at h <;> (cases h; exact h1)
          · cases h; exact h1

theorem run_js_block_cwd {recur : EngineRecur} {w : ToolWorld}
    {code fname : String} {st : EngineState} {r : Except String String} {s : EngineState}
    (hrec : PreservesCwdNone recur)
    (h : run_js_block recur w code fname st = some (r, s)) : s.cwd = st.cwd := by
  simp only [run_js_block] at h
  split at h
  next heq => cases h; exact setup_node_environment_cwd heq
  next u st1 heq =>
    have h1 : st1.cwd = st.cwd := setup_node_environment_cwd heq
    split at h
    · cases h; exact h1
    next status hst =>
      split at h
      · cases h; exact h1
      · split at h
        · exact absurd h (by simp)
        next e st3 heq2 =>
          cases h
          have h3 := handle_node_error_with_cwd hrec heq2
          rw [logE_cwd] at h3
          exact h3.trans h1
        next err st3 heq2 =>
          have h3 := handle_node_error_with_cwd hrec heq2
          rw [logE_cwd] at h3
          split at h <;> (cases h; exact h3.trans h1)

theorem run_ts_block_cwd {w : ToolWorld} {fname : String} {st : EngineState}
    {r : Except String String} {s : EngineState}
    (h : run_ts_block w fname st = some (r, s)) : s.cwd = st.cwd := by
  simp only [run_ts_block] at h
  split at h
  next heq => cases h; exact setup_node_environment_cwd heq
  next u st1 heq =>
    have h1 : st1.cwd = st.cwd := setup_node_environment_cwd heq
    split at h
    next heq2 => cases h; exact (install_node_package_cwd heq2).trans h1
    next u2 st2 heq2 =>
      have h2 : st2.cwd = st1.cwd := install_node_package_cwd heq2
      split at h
      next heq3 => cases h; exact ((install_node_package_cwd heq3).trans h2).trans h1
      next u3 st3 heq3 =>
        have h3 : st3.cwd = st2.cwd := install_node_package_cwd heq3
        split at h
        · cases h; exact (h3.trans h2).trans h1
        · split at h <;> (cases h; exact (h3.trans h2).trans h1)

theorem run_rs_block_cwd {w : ToolWorld} {fname : String} {st : EngineState}
    {r : Except String String} {s : EngineState}
    (h : run_rs_block w fname st = some (r, s)) : s.cwd = st.cwd := by
  simp only [run_rs_block] at h
  split at h
  · cases h; rfl
  · split at h
    · cases h; rfl
    · split at h
      · cases h; simp [logE_cwd, addFs_cwd]
      · split at h <;> (cases h; simp [logE_cwd, addFs_cwd])

theorem run_sh_block_cwd {w : ToolWorld} {fname : String} {st : EngineState}
    {r : Except String String} {s : EngineState}
    (h : run_sh_block w fname st = some (r, s)) : s.cwd = st.cwd := by
  simp only [run_sh_block] at h
  split at h
  · cases h; rfl
  · split at h <;> (cases h; rfl)

theorem run_html_block_cwd {w : ToolWorld} {fname : String} {st : EngineState}
    {r : Except String String} {s : EngineState}
    (h : run_html_block w fname st = some (r, s)) : s.cwd = st.cwd := by
  simp only [run_html_block] at h
  split at h
  · cases h; rfl
  · split at h <;> (cases h; rfl)

theorem execute_cwd_none {w : ToolWorld} :
    ∀ {fuel : Nat} {code lang : String} {st : EngineState} {r : Except String String}
      {s : EngineState},
      execute_code_block w fuel code lang none st = some (r, s) → s.cwd = st.cwd := by
  intro fuel
  induction fuel with
  | zero =>
    intro code lang st r s h
    exact absurd h (by simp [execute_code_block])
  | succ n ih =>
    intro code lang st r s h
    have hrec : PreservesCwdNone (execute_code_block w n) := fun c l s1 r1 s1' h1 => ih h1
    simp only [execute_code_block] at h
    split at h
    · split at h
      next heq => cases h; exact setup_react_environment_cwd heq
      next heq => cases h; exact setup_react_environment_cwd heq
    · split at h
      · have h2 := Option.some.inj h
        exact start_react_server_cwd h2
      · split at h
        · have h2 := Option.some.inj h
          exact start_local_server_cwd h2
        · split at h
          · cases h; rfl
          · split at h
            · cases h; rfl
            · cases h; exact addFs_cwd _ _
            · split at h
              · exact absurd h (by simp)
              next r0 st1 heq =>
                cases h
                have hst1 : st1.cwd = st.cwd := by
                  split at heq
                  · exact (run_python_block_cwd hrec heq).trans (by simp [logE_cwd, addFs_cwd])
                  · split at heq
                    · exact (run_js_block_cwd hrec heq).trans (by simp [logE_cwd, addFs_cwd])
                    · split at heq
                      · exact (run_ts_block_cwd heq).trans (by simp [logE_cwd, addFs_cwd])
                      · split at heq
                        · exact (run_rs_block_cwd heq).trans (by simp [logE_cwd, addFs_cwd])
                        · split at heq
                          · exact (run_sh_block_cwd heq).trans (by simp [logE_cwd, addFs_cwd])
                          · split at heq
                            · exact (run_html_block_cwd heq).trans (by simp [logE_cwd, addFs_cwd])
                            · cases heq; simp [logE_cwd, addFs_cwd]
                simp only [Option.isSome_none, Bool.false_eq_true, if_false]
                split <;> split <;> simp [rmFs_cwd, hst1]

theorem resolvePath_dotdot (c : List String) : resolvePath c ".." = c.dropLast := rfl

/-- C2 (amended): with a working-directory override, a supported language
and a non-meta fragment, when the temp write succeeds the engine restores
via set_current_dir("..") only: the working directory after the call is the
parent of the override directory, not the saved prior directory. -/
theorem workdir_restore_goes_to_parent {w : ToolWorld}
    (hw : ∀ evs, w.writeTemp evs = WriteOutcome.ok)
    {fuel : Nat} {code lang d : String} {st : EngineState} {ext : String}
    {r : Except String String} {s : EngineState}
    (h1 : rust_trim code ≠ "create-react-app") (h2 : rust_trim code ≠ "npm start")
    (h3 : hasPrefixL "start-server".data (rust_trim code).data = false)
    (hl : resolve_extension lang = some ext)
    (h : execute_code_block w fuel code lang (some d) st = some (r, s)) :
    s.cwd = (resolvePath st.cwd d).dropLast := by
  cases fuel with
  | zero => exact absurd h (by simp [execute_code_block])
  | succ n =>
    have hrec : PreservesCwdNone (execute_code_block w n) :=
      fun c l s1 r1 s1' hx => execute_cwd_none hx
    simp only [execute_code_block] at h
    rw [if_neg h1, if_neg h2, if_neg (by simp [h3])] at h
    simp only [hl] at h
    rw [hw _] at h
    split at h
    next heq => simp at heq
    next heq => simp at heq
    split at h
    · exact absurd h (by simp)
    next r0 st1 heq =>
      cases h
      have hst1 : st1.cwd = resolvePath st.cwd d := by
        split at heq
        · exact (run_python_block_cwd hrec heq).trans (by simp [logE_cwd, addFs_cwd])
        · split at heq
          · exact (run_js_block_cwd hrec heq).trans (by simp [logE_cwd, addFs_cwd])
          · split at heq
            · exact (run_ts_block_cwd heq).trans (by simp [logE_cwd, addFs_cwd])
            · split at heq
              · exact (run_rs_block_cwd heq).trans (by simp [logE_cwd, addFs_cwd])
              · split at heq
                · exact (run_sh_block_cwd heq).trans (by simp [logE_cwd, addFs_cwd])
                · split at heq
                  · exact (run_html_block_cwd heq).trans (by simp [logE_cwd, addFs_cwd])
                  · cases heq; simp [logE_cwd, addFs_cwd]
      simp only [Option.isSome_some, if_true, resolvePath_dotdot]
      split <;> split <;> simp [rmFs_cwd, hst1]

/-- C2 counterexample: with the override a/b from home, every toolchain
step succeeding, the working directory after the call is home/a (the
parent of the override), not the prior directory home. -/
theorem workdir_not_restored_nested_override :
    (execute_code_block okWorld 3 "print(1)" "python" (some "a/b") st0).map
        (fun x => x.2.cwd) = some ["home", "a"] ∧
      st0.cwd = ["home"] ∧ (["home", "a"] : List String) ≠ ["home"] := by
  exact ⟨rfl, rfl, by decide⟩

/-- C2 witness: the amended theorem applied at the concrete nested
override a/b from home. -/
theorem workdir_restore_goes_to_parent_witness :
    (resolvePath st0.cwd "a/b").dropLast = ["home", "a"] ∧
      ∀ r s, execute_code_block okWorld 3 "print(1)" "python" (some "a/b") st0 = some (r, s) →
        s.cwd = (resolvePath st0.cwd "a/b").dropLast := by
  refine ⟨rfl, fun r s h => ?_⟩
  have hl : resolve_extension "python" = some "py" := rfl
  exact workdir_restore_goes_to_parent (fun _ => rfl) (by decide) (by decide) (by decide) hl h

/-- C1: the missing-dependency retry is not bounded.  In loopWorld the
module stays missing until a second install (the first pip install fails
to provide it, which install_python_package cannot detect), and one single
top-level call performs two remediation installs and three executions of
the fragment — contradicting the claimed bound of at most one install and
one re-execution; with a permanently missing module the mutual recursion
of execute_code_block and handle_python_error never returns. -/
theorem python_missing_module_retry_unbounded :
    (execute_code_block loopWorld 5 "import foo" "python" none st0).map
      (fun x => (x.1, installCount x.2.events, pyRunCount x.2.events)) =
      some (.ok "ok", 2, 3) := by
  rfl

/-- C3: on a non-zero node exit the source passes the empty string to
handle_node_error (the diagnostic went to the inherited stderr and was
never captured), so the missing-module classification can never match, no
remediation install happens, and the caller receives the empty-string
error rather than the diagnostic. -/
theorem node_nonzero_exit_loses_diagnostic :
    (execute_code_block nodeFailWorld 3 "const app = require(1);" "js" none st0).map
      (fun x => (x.1, installCount x.2.events)) = some (.error "", 0) := by
  rfl

/-- C5 counterexample: a diagnostic that holds the ModuleNotFoundError
marker but not the No module named quote pattern makes extraction fail,
and the surfaced error is the fixed message, not the original diagnostic
text. -/
theorem extraction_failure_replaces_diagnostic :
    handle_python_error okWorld 3 "ModuleNotFoundError" "import x" st0 =
      some (.error "Could not extract package name", st0) ∧
      ("Could not extract package name" : String) ≠ "ModuleNotFoundError" := by
  exact ⟨rfl, by decide⟩

/-- C5 (amended): when the missing-module marker matches but the quoted
package name cannot be extracted, remediation is skipped without a crash
and the state is untouched, but the surfaced error is the fixed message
Could not extract package name instead of the original diagnostic. -/
theorem extraction_failure_skips_remediation {w : ToolWorld} {fuel : Nat}
    {error code : String} {st : EngineState} :
    (rust_contains error "ModuleNotFoundError" = true →
      extract_module_name ("No module named " ++ squote) error = none →
      handle_python_error w fuel error code st =
        some (.error "Could not extract package name", st)) ∧
    (rust_contains error "Cannot find module" = true →
      extract_module_name ("Cannot find module " ++ squote) error = none →
      handle_node_error w fuel error code st =
        some (.error "Could not extract package name", st)) := by
  constructor
  · intro hm he
    simp only [handle_python_error, handle_python_error_with, hm, if_true, he]
  · intro hm he
    simp only [handle_node_error, handle_node_error_with, hm, if_true, he]

/-- C5 witness: the amended statement applied to the bare marker text. -/
theorem extraction_failure_skips_remediation_witness :
    rust_contains "ModuleNotFoundError" "ModuleNotFoundError" = true ∧
      handle_python_error okWorld 3 "ModuleNotFoundError" "import x" st0 =
        some (.error "Could not extract package name", st0) :=
  ⟨by decide,
    (@extraction_failure_skips_remediation okWorld 3 "ModuleNotFoundError" "import x" st0).1
      (by decide) (by decide)⟩

/-- C7 counterexample: a fragment whose text is a start-server directive
but whose tag is ruby (outside the alias table) is executed — the static
file server is launched and the call succeeds — instead of failing with
the unsupported-language error. -/
theorem ruby_start_server_not_rejected :
    execute_code_block okWorld 2 "start-server 9090" "ruby" none st0 =
      some (.ok "Local server started on port 9090. Press Ctrl+C to stop.",
        logE st0 (.httpServerSpawn 9090)) ∧
      resolve_extension "ruby" = none := by
  exact ⟨rfl, rfl⟩

/-- C7 (amended): the alias table resolves paired tags identically and
case-insensitively, and a fragment that is not a meta-command directive
whose tag is outside the table fails with the unsupported-language error
with the state — in particular the filesystem — completely untouched. -/
theorem unsupported_language_rejected_before_any_file :
    (resolve_extension "py" = resolve_extension "python" ∧
      resolve_extension "js" = resolve_extension "javascript" ∧
      resolve_extension "ts" = resolve_extension "typescript" ∧
      resolve_extension "rs" = resolve_extension "rust" ∧
      resolve_extension "sh" = resolve_extension "bash" ∧
      resolve_extension "PY" = resolve_extension "python") ∧
    ∀ (w : ToolWorld) (fuel : Nat) (code lang : String) (wd : Option String)
      (st : EngineState),
      rust_trim code ≠ "create-react-app" → rust_trim code ≠ "npm start" →
      hasPrefixL "start-server".data (rust_trim code).data = false →
      resolve_extension lang = none →
      execute_code_block w (fuel + 1) code lang wd st =
        some (.error ("Unsupported language: " ++ lang), st) := by
  refine ⟨⟨rfl, rfl, rfl, rfl, rfl, rfl⟩, ?_⟩
  intro w fuel code lang wd st h1 h2 h3 hl
  simp only [execute_code_block]
  rw [if_neg h1, if_neg h2, if_neg (by simp [h3])]
  simp [hl]

/-- C7 witness: the rejection applied to an ordinary fragment tagged ruby. -/
theorem unsupported_language_rejected_before_any_file_witness :
    resolve_extension "ruby" = none ∧
      execute_code_block okWorld 1 "puts 1" "ruby" none st0 =
        some (.error ("Unsupported language: " ++ "ruby"), st0) :=
  ⟨rfl, unsupported_language_rejected_before_any_file.2 okWorld 0 "puts 1" "ruby" none st0
    (by decide) (by decide) (by decide) rfl⟩

theorem start_local_server_state (w : ToolWorld) (port : Nat) (wd : Option String)
    (st : EngineState) :
    (start_local_server w port wd st).2 = logE st (.httpServerSpawn port) := by
  unfold start_local_server; split <;> rfl

/-- C8: a fragment whose trimmed text starts with start-server short
circuits to start_local_server with the port parsed from the second
whitespace token (default 8000 when absent or unparsable), performing
no language resolution, no provisioning and no temp-file work: the only
effect is one detached server spawn bound to that port. -/
theorem start_server_directive_bypasses_resolution
    (w : ToolWorld) (fuel : Nat) (code lang : String) (wd : Option String)
    (st : EngineState)
    (h1 : rust_trim code ≠ "create-react-app") (h2 : rust_trim code ≠ "npm start")
    (h3 : hasPrefixL "start-server".data (rust_trim code).data = true) :
    execute_code_block w (fuel + 1) code lang wd st =
      some (start_local_server w (start_server_port code) wd st) ∧
    (start_local_server w (start_server_port code) wd st).2.fs = st.fs ∧
    (start_local_server w (start_server_port code) wd st).2.cwd = st.cwd ∧
    (start_local_server w (start_server_port code) wd st).2.events =
      st.events ++ [.httpServerSpawn (start_server_port code)] := by
  refine ⟨?_, ?_, ?_, ?_⟩
  · simp only [execute_code_block]
    rw [if_neg h1, if_neg h2, if_pos h3]
  · rw [start_local_server_state]; rfl
  · rw [start_local_server_state]; rfl
  · rw [start_local_server_state]; rfl

/-- C8 witness: start-server 9090 parses port 9090 and dispatches to the
static file server. -/
theorem start_server_directive_bypasses_resolution_witness :
    start_server_port "start-server 9090" = 9090 ∧
      execute_code_block okWorld 1 "start-server 9090" "ruby" none st0 =
        some (start_local_server okWorld (start_server_port "start-server 9090") none st0) :=
  ⟨by decide,
    (start_server_directive_bypasses_resolution okWorld 0 "start-server 9090" "ruby" none st0
      (by decide) (by decide) (by decide)).1⟩

/-- A world in which each package install spawns but exits non-zero. -/
def failInstallWorld : ToolWorld :=
  { okWorld with
    pipInstall := fun _ _ => .ok { success := false, stdout := "", stderr := "install failed" },
    npmInstall := fun _ _ => .ok { success := false, stdout := "", stderr := "install failed" } }

/-- C9: both remediation installers return Ok whenever the package-manager
process could be spawned, even when it exits non-zero — the exit status is
dropped, so a remediation step can report success without the package
being installed. -/
theorem install_reports_ok_despite_nonzero_exit
    (w : ToolWorld) (pkg : String) (st : EngineState) (out outN : CmdOutput)
    (hp : w.pipInstall pkg st.events = .ok out) (hps : out.success = false)
    (hn : w.npmInstall pkg st.events = .ok outN) (hns : outN.success = false) :
    install_python_package w pkg st = (.ok (), logE st (.pipInstall pkg)) ∧
    install_node_package w pkg st = (.ok (), logE st (.npmInstall pkg)) := by
  constructor
  · simp only [install_python_package, hp]
  · simp only [install_node_package, hn]

/-- C9 witness: in failInstallWorld the installers exit non-zero yet both
install functions report Ok. -/
theorem install_reports_ok_despite_nonzero_exit_witness :
    (failInstallWorld.pipInstall "leftpad" st0.events =
      .ok { success := false, stdout := "", stderr := "install failed" }) ∧
      install_python_package failInstallWorld "leftpad" st0 =
        (.ok (), logE st0 (.pipInstall "leftpad")) :=
  ⟨rfl, (install_reports_ok_despite_nonzero_exit failInstallWorld "leftpad" st0
    { success := false, stdout := "", stderr := "install failed" }
    { success := false, stdout := "", stderr := "install failed" }
    rfl rfl rfl rfl).1⟩

theorem run_html_block_fs {w : ToolWorld} {fname : String} {st : EngineState}
    {r : Except String String} {s : EngineState}
    (h : run_html_block w fname st = some (r, s)) : s.fs = st.fs := by
  simp only [run_html_block] at h
  split at h
  · cases h; rfl
  · split at h <;> (cases h; rfl)

/-- The directory in which execute_code_block materializes the temp file:
the current directory, or the resolved working-directory override. -/
def effective_dir (st : EngineState) (wd : Option String) : List String :=
  match wd with
  | none => st.cwd
  | some d => resolvePath st.cwd d

/-- C6 counterexample: when the temp-file write fails after File::create
has created the (empty) file, the question-mark early return skips the
cleanup and the temp source file is still on disk after the call returns
with an error. -/
theorem write_failure_leaves_temp_file :
    execute_code_block writeFailWorld 2 "print(1)" "python" none st0 =
      some (.error "disk full",
        { cwd := ["home"], fs := [["home", "temp_code.py"]], events := [] }) ∧
      (["home", "temp_code.py"] : List String) ∈
        ({ cwd := ["home"], fs := [["home", "temp_code.py"]],
            events := [] } : EngineState).fs := by
  exact ⟨rfl, by decide⟩

theorem ite_update_fs (c : Prop) [Decidable c] (a : List String) (s : EngineState) :
    (if c then { s with cwd := a } else s).fs = s.fs := by
  split <;> rfl

/-- C6 (amended): provided the temp-file write itself succeeds, cleanup
holds on every return path: for every family except html the temp source
file is gone afterwards, for rs the compiled binary is gone as well, and
for html the temp file is deliberately left on disk. -/
theorem cleanup_removes_artifacts {w : ToolWorld}
    (hw : ∀ evs, w.writeTemp evs = WriteOutcome.ok)
    {fuel : Nat} {code lang : String} {wd : Option String} {st : EngineState}
    {ext : String} {r : Except String String} {s : EngineState}
    (h1 : rust_trim code ≠ "create-react-app") (h2 : rust_trim code ≠ "npm start")
    (h3 : hasPrefixL "start-server".data (rust_trim code).data = false)
    (hl : resolve_extension lang = some ext)
    (h : execute_code_block w fuel code lang wd st = some (r, s)) :
    (ext ≠ "html" → (effective_dir st wd ++ ["temp_code." ++ ext]) ∉ s.fs) ∧
    (ext = "rs" → (effective_dir st wd ++ ["temp_code"]) ∉ s.fs) ∧
    (ext = "html" → (effective_dir st wd ++ ["temp_code." ++ ext]) ∈ s.fs) := by
  cases fuel with
  | zero => exact absurd h (by simp [execute_code_block])
  | succ n =>
    have hrec : PreservesCwdNone (execute_code_block w n) :=
      fun c l s1 r1 s1' hx => execute_cwd_none hx
    simp only [execute_code_block] at h
    rw [if_neg h1, if_neg h2, if_neg (by simp [h3])] at h
    simp only [hl] at h
    rw [hw _] at h
    split at h
    next heq => simp at heq
    next heq => simp at heq
    split at h
    · exact absurd h (by simp)
    next r0 st1 heq =>
      cases h
      have hst1 : st1.cwd = effective_dir st wd := by
        split at heq
        · exact (run_python_block_cwd hrec heq).trans
            (by cases wd <;> simp [effective_dir, logE_cwd, addFs_cwd])
        · split at heq
          · exact (run_js_block_cwd hrec heq).trans
              (by cases wd <;> simp [effective_dir, logE_cwd, addFs_cwd])
          · split at heq
            · exact (run_ts_block_cwd heq).trans
                (by cases wd <;> simp [effective_dir, logE_cwd, addFs_cwd])
            · split at heq
              · exact (run_rs_block_cwd heq).trans
                  (by cases wd <;> simp [effective_dir, logE_cwd, addFs_cwd])
              · split at heq
                · exact (run_sh_block_cwd heq).trans
                    (by cases wd <;> simp [effective_dir, logE_cwd, addFs_cwd])
                · split at heq
                  · exact (run_html_block_cwd heq).trans
                      (by cases wd <;> simp [effective_dir, logE_cwd, addFs_cwd])
                  · cases heq
                    cases wd <;> simp [effective_dir, logE_cwd, addFs_cwd]
      refine ⟨?_, ?_, ?_⟩
      · intro hne
        rw [ite_update_fs, if_pos hne]
        have hgone : (effective_dir st wd ++ ["temp_code." ++ ext]) ∉
            (rmFs st1 (st1.cwd ++ ["temp_code." ++ ext])).fs := by
          rw [hst1]; exact rmFs_not_mem _ _
        split
        · exact rmFs_mono hgone
        · exact hgone
      · intro hrs
        subst hrs
        rw [ite_update_fs, if_pos (by decide : ("rs" : String) ≠ "html"), if_pos rfl]
        have hcw : (rmFs st1 (st1.cwd ++ ["temp_code." ++ "rs"])).cwd = st1.cwd :=
          rmFs_cwd _ _
        rw [hcw, hst1]
        exact rmFs_not_mem _ _
      · intro hh
        subst hh
        rw [ite_update_fs, if_neg (by decide : ¬ ("html" : String) = "rs"),
          if_neg (by simp : ¬ ("html" : String) ≠ "html")]
        rw [if_neg (by decide : ¬ ("html" : String) = "py")] at heq
        rw [if_neg (by decide : ¬ ("html" : String) = "js")] at heq
        rw [if_neg (by decide : ¬ ("html" : String) = "ts")] at heq
        rw [if_neg (by decide : ¬ ("html" : String) = "rs")] at heq
        rw [if_neg (by decide : ¬ ("html" : String) = "sh")] at heq
        rw [if_pos rfl] at heq
        have hfs2 := run_html_block_fs heq
        rw [hfs2]
        simp only [logE_fs]
        cases wd with
        | none =>
          simp only [effective_dir]
          exact addFs_mem _ _
        | some d =>
          simp only [effective_dir]
          exact addFs_mem _ _

/-- C6 witness: the cleanup theorem applied to a concrete python run in
the all-success world. -/
theorem cleanup_removes_artifacts_witness :
    resolve_extension "python" = some "py" ∧
      ∀ r s, execute_code_block okWorld 3 "print(1)" "python" none st0 = some (r, s) →
        (effective_dir st0 none ++ ["temp_code." ++ "py"]) ∉ s.fs := by
  refine ⟨rfl, fun r s h => ?_⟩
  have hl : resolve_extension "python" = some "py" := rfl
  exact (cleanup_removes_artifacts (fun _ => rfl) (by decide) (by decide) (by decide)
    hl h).1 (by decide)

theorem venvCreateCount_append (evs evs2 : List EngineEvent) :
    venvCreateCount (evs ++ evs2) = venvCreateCount evs + venvCreateCount evs2 := by
  simp [venvCreateCount, List.filter_append]

theorem venvCreateCount_pipUpgrade (pkg : String) :
    venvCreateCount [.pipUpgrade pkg] = 0 := rfl

theorem pip_upgrade_loop_venvCount {w : ToolWorld} {pkg : String} :
    ∀ {n : Nat} {st : EngineState} {r : Except String Unit} {s : EngineState},
      pip_upgrade_loop w pkg n st = (r, s) →
      venvCreateCount s.events = venvCreateCount st.events := by
  intro n
  induction n with
  | zero => intro st r s h; cases h; rfl
  | succ n ih =>
    intro st r s h
    simp only [pip_upgrade_loop] at h
    split at h
    · cases h; simp [logE_events, venvCreateCount_append, venvCreateCount_pipUpgrade]
    · split at h
      · cases h; simp [logE_events, venvCreateCount_append, venvCreateCount_pipUpgrade]
      · split at h
        · cases h; simp [logE_events, venvCreateCount_append, venvCreateCount_pipUpgrade]
        · have := ih h
          simp only [logE_events, venvCreateCount_append, venvCreateCount_pipUpgrade] at this
          simpa using this

theorem pip_upgrade_loop_fs {w : ToolWorld} {pkg : String} :
    ∀ {n : Nat} {st : EngineState} {r : Except String Unit} {s : EngineState},
      pip_upgrade_loop w pkg n st = (r, s) → s.fs = st.fs := by
  intro n
  induction n with
  | zero => intro st r s h; cases h; rfl
  | succ n ih =>
    intro st r s h
    simp only [pip_upgrade_loop] at h
    split at h
    · cases h; rfl
    · split at h
      · cases h; rfl
      · split at h
        · cases h; rfl
        · have := ih h; simpa [logE_fs] using this

theorem setup_python_packages_venvCount {w : ToolWorld} {st : EngineState}
    {r : Except String Unit} {s : EngineState}
    (h : setup_python_packages w st = (r, s)) :
    venvCreateCount s.events = venvCreateCount st.events := by
  simp only [setup_python_packages] at h
  split at h
  next heq => cases h; exact pip_upgrade_loop_venvCount heq
  next u s1 heq =>
    split at h
    next heq2 =>
      cases h
      exact (pip_upgrade_loop_venvCount heq2).trans (pip_upgrade_loop_venvCount heq)
    next u2 s2 heq2 =>
      exact ((pip_upgrade_loop_venvCount h).trans (pip_upgrade_loop_venvCount heq2)).trans
        (pip_upgrade_loop_venvCount heq)

theorem setup_python_packages_fs {w : ToolWorld} {st : EngineState}
    {r : Except String Unit} {s : EngineState}
    (h : setup_python_packages w st = (r, s)) : s.fs = st.fs := by
  simp only [setup_python_packages] at h
  split at h
  next heq => cases h; exact pip_upgrade_loop_fs heq
  next u s1 heq =>
    split at h
    next heq2 => cases h; exact (pip_upgrade_loop_fs heq2).trans (pip_upgrade_loop_fs heq)
    next u2 s2 heq2 =>
      exact ((pip_upgrade_loop_fs h).trans (pip_upgrade_loop_fs heq2)).trans
        (pip_upgrade_loop_fs heq)

theorem venvCreateCount_one : venvCreateCount [.venvCreate] = 1 := rfl

theorem setup_python_env_no_recreate {w : ToolWorld} {st : EngineState}
    {r : Except String Unit} {s : EngineState}
    (hm : (st.cwd ++ ["venv"]) ∈ st.fs)
    (h : setup_python_environment w st = (r, s)) :
    venvCreateCount s.events = venvCreateCount st.events := by
  simp only [setup_python_environment] at h
  rw [if_pos hm] at h
  exact setup_python_packages_venvCount h

theorem setup_python_env_creates_once {w : ToolWorld} {st : EngineState} {out : CmdOutput}
    {r : Except String Unit} {s : EngineState}
    (hm : (st.cwd ++ ["venv"]) ∉ st.fs)
    (hv : w.venvCreate st.events = .ok out) (hs : out.success = true)
    (h : setup_python_environment w st = (r, s)) :
    venvCreateCount s.events = venvCreateCount st.events + 1 ∧
      (s.cwd ++ ["venv"]) ∈ s.fs := by
  simp only [setup_python_environment] at h
  rw [if_neg hm] at h
  simp only [hv] at h
  rw [if_pos hs] at h
  constructor
  · have hc := setup_python_packages_venvCount h
    simp only [addFs_events, logE_events, venvCreateCount_append, venvCreateCount_one] at hc
    exact hc
  · have hfs := setup_python_packages_fs h
    have hcw := setup_python_packages_cwd h
    rw [hfs, hcw]
    simp only [addFs_cwd, logE_cwd]
    have hmem := addFs_mem (logE st .venvCreate) ((logE st .venvCreate).cwd ++ ["venv"])
    simpa [logE_cwd] using hmem

/-- C4 (amended): provisioning never re-creates an existing environment —
when the marker exists, no creation invocation happens, and across two
successive calls on a clean directory exactly one creation happens.  The
Node provisioner is a true no-op on its second call; the Python
provisioner is not (see the counterexample): it skips creation but re-runs
the baseline package upgrades on every call. -/
theorem provisioning_skips_existing_markers :
    (∀ (w : ToolWorld) (st : EngineState) (r : Except String Unit) (s : EngineState),
      (st.cwd ++ ["venv"]) ∈ st.fs → setup_python_environment w st = (r, s) →
      venvCreateCount s.events = venvCreateCount st.events) ∧
    (∀ (w : ToolWorld) (st : EngineState),
      (st.cwd ++ ["package.json"]) ∈ st.fs → setup_node_environment w st = (.ok (), st)) ∧
    (∀ (w : ToolWorld) (st : EngineState) (out : CmdOutput) (r : Except String Unit)
        (s : EngineState),
      (st.cwd ++ ["venv"]) ∉ st.fs → w.venvCreate st.events = .ok out →
      out.success = true → setup_python_environment w st = (r, s) →
      venvCreateCount s.events = venvCreateCount st.events + 1 ∧
        (s.cwd ++ ["venv"]) ∈ s.fs) ∧
    (∀ (w : ToolWorld) (st : EngineState) (out : CmdOutput),
      (st.cwd ++ ["venv"]) ∉ st.fs → w.venvCreate st.events = .ok out →
      out.success = true →
      venvCreateCount ((setup_python_environment w
          ((setup_python_environment w st).2)).2).events
        = venvCreateCount st.events + 1) := by
  refine ⟨fun w st r s hm h => setup_python_env_no_recreate hm h,
    fun w st hm => by simp [setup_node_environment, hm],
    fun w st out r s hm hv hs h => setup_python_env_creates_once hm hv hs h, ?_⟩
  intro w st out hm hv hs
  cases hx : setup_python_environment w st with
  | mk r1 s1 =>
    have hc := setup_python_env_creates_once hm hv hs hx
    show venvCreateCount (setup_python_environment w s1).2.events
      = venvCreateCount st.events + 1
    cases hy : setup_python_environment w s1 with
    | mk r2 s2 =>
      have h2 := setup_python_env_no_recreate hc.2 hy
      exact h2.trans hc.1

/-- The state after one Python provisioning call in the all-success world. -/
def c4FirstState : EngineState := (setup_python_environment okWorld st0).2

/-- C4 counterexample: the second Python provisioning call in the
all-success world is not a no-op: it performs the three baseline upgrade
invocations again and returns a changed state. -/
theorem python_provisioning_second_call_not_noop :
    (setup_python_environment okWorld c4FirstState).2.events =
      c4FirstState.events ++
        [.pipUpgrade "pip", .pipUpgrade "setuptools", .pipUpgrade "wheel"] ∧
      (setup_python_environment okWorld c4FirstState).2 ≠ c4FirstState := by
  exact ⟨rfl, by decide⟩

/-- C4 witness: the double-call conjunct applied to the clean initial
state in the all-success world: exactly one creation across both calls. -/
theorem provisioning_skips_existing_markers_witness :
    ((st0.cwd ++ ["venv"]) ∉ st0.fs ∧ okWorld.venvCreate st0.events = .ok okOut ∧
        okOut.success = true) ∧
      venvCreateCount ((setup_python_environment okWorld
          ((setup_python_environment okWorld st0).2)).2).events
        = venvCreateCount st0.events + 1 :=
  ⟨⟨by decide, rfl, rfl⟩,
    provisioning_skips_existing_markers.2.2.2 okWorld st0 okOut (by decide) rfl rfl⟩

/-- Any successful result in res is either the empty string (inherited
streams and interactive re-invocations) or the captured stdout of a
successful non-interactive Python run of world w. -/
def PyOkShape (w : ToolWorld) (res : EngineResult) : Prop :=
  ∀ s st', res = some (.ok s, st') →
    s = "" ∨ ∃ evs out, w.pythonRun evs = .ok out ∧ out.success = true ∧ s = out.stdout

theorem handle_python_error_with_shape {recur : EngineRecur} {w : ToolWorld}
    {error code : String} {st : EngineState}
    (hrec : ∀ st1, PyOkShape w (recur code "python" none st1)) :
    PyOkShape w (handle_python_error_with recur w error code st) := by
  intro s st' h
  simp only [handle_python_error_with] at h
  split at h
  · split at h
    · simp at h
    · split at h
      · simp at h
      next st1 heq => exact hrec st1 s st' h
  · simp at h

theorem run_python_block_shape {recur : EngineRecur} {w : ToolWorld}
    {code fname : String} {st : EngineState}
    (hrec : ∀ st1, PyOkShape w (recur code "python" none st1)) :
    PyOkShape w (run_python_block recur w code fname st) := by
  intro s st' h
  simp only [run_python_block] at h
  split at h
  · simp at h
  next u st1 heq =>
    split at h
    · simp at h
    next out hout =>
      split at h
      next hsucc =>
        right
        simp only [Option.some.injEq, Prod.mk.injEq, Except.ok.injEq] at h
        exact ⟨st1.events, out, hout, hsucc, h.1.symm⟩
      · split at h
        · exact handle_python_error_with_shape hrec s st' h
        · split at h
          · split at h
            · simp at h
            · split at h
              · left
                simp only [Option.some.injEq, Prod.mk.injEq, Except.ok.injEq] at h
                exact h.1.symm
              · simp at h
          · simp at h

theorem run_js_block_ok_empty {recur : EngineRecur} {w : ToolWorld}
    {code fname : String} {st : EngineState} {s : String} {st' : EngineState}
    (h : run_js_block recur w code fname st = some (.ok s, st')) : s = "" := by
  simp only [run_js_block] at h
  split at h
  · simp at h
  · split at h
    · simp at h
    · split at h
      · simp only [Option.some.injEq, Prod.mk.injEq, Except.ok.injEq] at h
        exact h.1.symm
      · split at h
        · exact absurd h (by simp)
        · simp at h
        · split at h
          · simp only [Option.some.injEq, Prod.mk.injEq, Except.ok.injEq] at h
            exact h.1.symm
          · simp at h

theorem run_ts_block_ok_empty {w : ToolWorld} {fname : String} {st : EngineState}
    {s : String} {st' : EngineState}
    (h : run_ts_block w fname st = some (.ok s, st')) : s = "" := by
  simp only [run_ts_block] at h
  split at h
  · simp at h
  · split at h
    · simp at h
    · split at h
      · simp at h
      · split at h
        · simp at h
        · split at h
          · simp only [Option.some.injEq, Prod.mk.injEq, Except.ok.injEq] at h
            exact h.1.symm
          · simp at h

theorem run_rs_block_ok_empty {w : ToolWorld} {fname : String} {st : EngineState}
    {s : String} {st' : EngineState}
    (h : run_rs_block w fname st = some (.ok s, st')) : s = "" := by
  simp only [run_rs_block] at h
  split at h
  · simp at h
  · split at h
    · simp at h
    · split at h
      · simp at h
      · split at h
        · simp only [Option.some.injEq, Prod.mk.injEq, Except.ok.injEq] at h
          exact h.1.symm
        · simp at h

theorem run_sh_block_ok_empty {w : ToolWorld} {fname : String} {st : EngineState}
    {s : String} {st' : EngineState}
    (h : run_sh_block w fname st = some (.ok s, st')) : s = "" := by
  simp only [run_sh_block] at h
  split at h
  · simp at h
  · split at h
    · simp only [Option.some.injEq, Prod.mk.injEq, Except.ok.injEq] at h
      exact h.1.symm
    · simp at h

theorem execute_mainstream_ok_empty {w : ToolWorld} {fuel : Nat} {code lang : String}
    {wd : Option String} {st : EngineState} {ext : String} {s : String} {st' : EngineState}
    (h1 : rust_trim code ≠ "create-react-app") (h2 : rust_trim code ≠ "npm start")
    (h3 : hasPrefixL "start-server".data (rust_trim code).data = false)
    (hl : resolve_extension lang = some ext)
    (hext : ext = "js" ∨ ext = "ts" ∨ ext = "rs" ∨ ext = "sh")
    (h : execute_code_block w fuel code lang wd st = some (.ok s, st')) : s = "" := by
  cases fuel with
  | zero => exact absurd h (by simp [execute_code_block])
  | succ n =>
    simp only [execute_code_block] at h
    rw [if_neg h1, if_neg h2, if_neg (by simp [h3])] at h
    simp only [hl] at h
    split at h
    · simp at h
    · simp at h
    · split at h
      · simp at h
      next r0 st1 heq =>
        simp only [Option.some.injEq, Prod.mk.injEq] at h
        rw [h.1] at heq
        rcases hext with he | he | he | he <;> subst he
        · rw [if_neg (by decide : ¬ ("js" : String) = "py"), if_pos rfl] at heq
          exact run_js_block_ok_empty heq
        · rw [if_neg (by decide : ¬ ("ts" : String) = "py"),
            if_neg (by decide : ¬ ("ts" : String) = "js"), if_pos rfl] at heq
          exact run_ts_block_ok_empty heq
        · rw [if_neg (by decide : ¬ ("rs" : String) = "py"),
            if_neg (by decide : ¬ ("rs" : String) = "js"),
            if_neg (by decide : ¬ ("rs" : String) = "ts"), if_pos rfl] at heq
          exact run_rs_block_ok_empty heq
        · rw [if_neg (by decide : ¬ ("sh" : String) = "py"),
            if_neg (by decide : ¬ ("sh" : String) = "js"),
            if_neg (by decide : ¬ ("sh" : String) = "ts"),
            if_neg (by decide : ¬ ("sh" : String) = "rs"), if_pos rfl] at heq
          exact run_sh_block_ok_empty heq

theorem execute_python_ok_shape {w : ToolWorld} :
    ∀ {fuel : Nat} {code lang : String} {wd : Option String} {st : EngineState},
      rust_trim code ≠ "create-react-app" → rust_trim code ≠ "npm start" →
      hasPrefixL "start-server".data (rust_trim code).data = false →
      resolve_extension lang = some "py" →
      PyOkShape w (execute_code_block w fuel code lang wd st) := by
  intro fuel
  induction fuel with
  | zero =>
    intro code lang wd st h1 h2 h3 hl s st' h
    exact absurd h (by simp [execute_code_block])
  | succ n ih =>
    intro code lang wd st h1 h2 h3 hl s st' h
    simp only [execute_code_block] at h
    rw [if_neg h1, if_neg h2, if_neg (by simp [h3])] at h
    simp only [hl] at h
    split at h
    · simp at h
    · simp at h
    · split at h
      · simp at h
      next r0 st1 heq =>
        simp only [Option.some.injEq, Prod.mk.injEq] at h
        rw [h.1] at heq
        simp only [if_true] at heq
        have hrec : ∀ st2, PyOkShape w (execute_code_block w n code "python" none st2) :=
          fun st2 => ih h1 h2 h3 rfl
        exact run_python_block_shape hrec s st1 heq

/-- C10: for js, ts, rs and sh families every successful execution
returns the empty string (child output goes to the inherited streams),
and for the py family every successful result is either empty (the
interactive re-invocation path) or the captured stdout of a successful
non-interactive Python run — only that path returns captured output. -/
theorem captured_output_only_python_noninteractive :
    (∀ (w : ToolWorld) (fuel : Nat) (code lang : String) (wd : Option String)
        (st : EngineState) (ext : String) (s : String) (st' : EngineState),
      rust_trim code ≠ "create-react-app" → rust_trim code ≠ "npm start" →
      hasPrefixL "start-server".data (rust_trim code).data = false →
      resolve_extension lang = some ext →
      ext = "js" ∨ ext = "ts" ∨ ext = "rs" ∨ ext = "sh" →
      execute_code_block w fuel code lang wd st = some (.ok s, st') → s = "") ∧
    (∀ (w : ToolWorld) (fuel : Nat) (code lang : String) (wd : Option String)
        (st : EngineState),
      rust_trim code ≠ "create-react-app" → rust_trim code ≠ "npm start" →
      hasPrefixL "start-server".data (rust_trim code).data = false →
      resolve_extension lang = some "py" →
      PyOkShape w (execute_code_block w fuel code lang wd st)) :=
  ⟨fun w fuel code lang wd st ext s st' h1 h2 h3 hl hext h =>
    execute_mainstream_ok_empty h1 h2 h3 hl hext h,
    fun w fuel code lang wd st h1 h2 h3 hl => execute_python_ok_shape h1 h2 h3 hl⟩

/-- The final state of the concrete js run used by the C10 witness. -/
def c10State : EngineState :=
  ((execute_code_block okWorld 2 "console.log(1)" "js" none st0).getD (.ok "", st0)).2

/-- C10 witness: a concrete successful js execution returns the empty
string, via the claim theorem. -/
theorem captured_output_only_python_noninteractive_witness :
    execute_code_block okWorld 2 "console.log(1)" "js" none st0 =
      some (.ok "", c10State) ∧ ("" : String) = "" :=
  ⟨rfl,
    captured_output_only_python_noninteractive.1 okWorld 2 "console.log(1)" "js" none st0
      "js" "" c10State (by decide) (by decide) (by decide) rfl (Or.inl rfl) rfl⟩
